import Mathlib

/-!
Verification of the handshake + single-connection RPC dispatch core of the
`go-arcade/arcade` Python notify-plugin example
(`examples/python-plugin/plugin.py`).

The embedding models Python values that can flow through the JSON wire as the
inductive type `JVal` (Python `None` is `JVal.jnull`, which is also what JSON
`null` decodes to), Python exceptions as `PyExc`, and the behaviour of the
external `json.loads` library on strings as an explicit oracle parameter
`jl : String → Except String JVal` (success value, or the message of the
raised `json.JSONDecodeError`).  Standard-error logging is modelled as lists
of strings; the single stdout/stderr/socket history of a whole process run is
modelled as a `List Event`.
-/

/-- A JSON-serializable Python value.  `jnull` is Python `None` (JSON `null`
decodes to the same object). -/
inductive JVal where
  | jnull
  | jbool (b : Bool)
  | jnum (n : Int)
  | jstr (s : String)
  | jarr (xs : List JVal)
  | jobj (fields : List (String × JVal))

/-- Python truthiness (`if x:`) restricted to the values of `JVal`. -/
def pyTruthy : JVal → Bool
  | .jnull => false
  | .jbool b => b
  | .jnum n => n != 0
  | .jstr s => !s.toList.isEmpty
  | .jarr xs => !xs.isEmpty
  | .jobj fs => !fs.isEmpty

/-- The Python type name of a `JVal`, as used in runtime error messages. -/
def pyTypeName : JVal → String
  | .jnull => "NoneType"
  | .jbool _ => "bool"
  | .jnum _ => "int"
  | .jstr _ => "str"
  | .jarr _ => "list"
  | .jobj _ => "dict"

mutual

/-- Model of Python `repr` on `JVal` (strings are quoted, lists and dicts
render their elements recursively, as CPython does). -/
def pyRepr : JVal → String
  | .jnull => "None"
  | .jbool true => "True"
  | .jbool false => "False"
  | .jnum n => toString n
  | .jstr s => "\x27" ++ s ++ "\x27"
  | .jarr xs => "[" ++ pyReprList xs ++ "]"
  | .jobj fs => "\x7b" ++ pyReprFields fs ++ "\x7d"

/-- Comma-separated `repr` of the elements of a decoded JSON array. -/
def pyReprList : List JVal → String
  | [] => ""
  | [v] => pyRepr v
  | v :: vs => pyRepr v ++ ", " ++ pyReprList vs

/-- Comma-separated `repr` of the bindings of a decoded JSON object. -/
def pyReprFields : List (String × JVal) → String
  | [] => ""
  | [p] => "\x27" ++ p.1 ++ "\x27: " ++ pyRepr p.2
  | p :: ps => "\x27" ++ p.1 ++ "\x27: " ++ pyRepr p.2 ++ ", " ++ pyReprFields ps

end

/-- Model of Python `str` on `JVal` (like `repr` except that a top-level
string is rendered without quotes). -/
def pyStr : JVal → String
  | .jstr s => s
  | v => pyRepr v

/-- Model of Python `dict.get(k, d)` on a decoded JSON object: the value of
the last binding of `k` (as `json.loads` keeps the last duplicate key), or
the default `d` when `k` is absent. -/
def pyGetD (fields : List (String × JVal)) (k : String) (d : JVal) : JVal :=
  match fields.reverse.find? (fun p => p.1 == k) with
  | some p => p.2
  | none => d

/-- Model of `method.split(".")[-1]` from `plugin.py` line 334: the final
dot-separated segment of a method name, i.e. the characters after the last
dot (the whole string when it has no dot), computed structurally over the
character list. -/
def lastSegment (s : String) : String :=
  String.mk ((s.toList.reverse.takeWhile (fun c => c != '.')).reverse)

/-- A raised Python exception: the class name and the `str(e)` message. -/
structure PyExc where
  kind : String
  msg : String

/-- Model of `traceback.format_exc()` for a caught exception: a stack trace
whose text ends with the exception class and message, as CPython renders it.
The intermediate stack frames are not modelled; what matters for the wire
protocol is that this string is the trace written by the logging calls. -/
def format_exc (e : PyExc) : String :=
  "Traceback (most recent call last):\n  ...\n" ++ e.kind ++ ": " ++ e.msg

/-- Model of `json.loads(v)` where `v` is an arbitrary Python value and
`jl` is the oracle giving the behaviour of the library on strings: a
non-string argument raises `TypeError`, a string argument parses via the
oracle (failure is a `json.JSONDecodeError`). -/
def pyJsonLoads (jl : String → Except String JVal) : JVal → Except PyExc JVal
  | .jstr s =>
      match jl s with
      | .ok v => .ok v
      | .error m => .error ⟨"json.decoder.JSONDecodeError", m⟩
  | v => .error ⟨"TypeError",
      "the JSON object must be str, bytes or bytearray, not " ++ pyTypeName v⟩

/-- A structural model of `needle.isPrefixOf hay` on character lists, for
`str.startswith`. -/
def strStartsWith (s marker : String) : Bool :=
  marker.toList.isPrefixOf s.toList

/-- Model of Python `len(v)`: defined on strings, lists and dicts, raises
`TypeError` otherwise. -/
def pyLen : JVal → Except PyExc Nat
  | .jstr s => .ok s.toList.length
  | .jarr xs => .ok xs.length
  | .jobj fs => .ok fs.length
  | v => .error ⟨"TypeError", "object of type " ++ pyTypeName v ++ " has no len()"⟩

/-- Model of Python argument unpacking `f(*params)`: a list unpacks to its
elements, a string to its characters, a dict to its keys; other values raise
`TypeError` at the call site. -/
def pyUnpack : JVal → Except PyExc (List JVal)
  | .jarr xs => .ok xs
  | .jstr s => .ok (s.toList.map (fun c => .jstr (String.mk [c])))
  | .jobj fs => .ok (fs.map (fun p => .jstr p.1))
  | v => .error ⟨"TypeError",
      "argument after * must be an iterable, not " ++ pyTypeName v⟩

/-- The mutable state of a `NotifyPlugin` instance: only `self.config` is
ever reassigned after `__init__` (by `Init`); the identity fields `name`,
`version`, `plugin_type`, `description` are constants. -/
structure PluginState where
  config : JVal

/-- The plugin state right after `NotifyPlugin.__init__`: `self.config = {}`. -/
def initialPlugin : PluginState := ⟨.jobj []⟩

/-- A line written to the plugin log channel (stderr) by
`NotifyPlugin._debug`: prefixed with the plugin name. -/
def plgLog (s : String) : String := "[python-notify] " ++ s

/-- A line written to the log channel (stderr) by `SimpleRPCServer._debug`. -/
def srvLog (s : String) : String := "[RPC] " ++ s

/-- The outcome of invoking a resolved attribute: a returned value (Python
functions that fall off the end return `None`, i.e. `JVal.jnull`) or a
raised exception. -/
inductive Outcome where
  | ok (v : JVal)
  | exc (e : PyExc)

/-- The attributes of a `NotifyPlugin` instance, as defined in `plugin.py`:
the five instance fields assigned in `__init__` and the ten methods of the
class.  (Attributes inherited from `object` are outside the model.) -/
inductive PluginAttr where
  | fName | fVersion | fPluginType | fDescription | fConfig
  | mDebug | mName | mDescription | mVersion | mType
  | mInit | mCleanup | mSend | mSendTemplate | mSendBatch

/-- Model of `hasattr`/`getattr` on the plugin instance: which attribute, if
any, a (namespace-stripped) method name resolves to. -/
def attrOf : String → Option PluginAttr
  | "name" => some .fName
  | "version" => some .fVersion
  | "plugin_type" => some .fPluginType
  | "description" => some .fDescription
  | "config" => some .fConfig
  | "_debug" => some .mDebug
  | "Name" => some .mName
  | "Description" => some .mDescription
  | "Version" => some .mVersion
  | "Type" => some .mType
  | "Init" => some .mInit
  | "Cleanup" => some .mCleanup
  | "Send" => some .mSend
  | "SendTemplate" => some .mSendTemplate
  | "SendBatch" => some .mSendBatch
  | _ => none

/-- The `TypeError` CPython raises when a bound method is called with the
wrong number of positional arguments (counts include `self`). -/
def arityExc (fname : String) (expected got : Nat) : PyExc :=
  ⟨"TypeError", fname ++ "() takes " ++ toString expected ++
    " positional arguments but " ++ toString got ++ " were given"⟩

/-- The `TypeError` raised when a non-callable data attribute is called. -/
def notCallableExc (tname : String) : PyExc :=
  ⟨"TypeError", tname ++ " object is not callable"⟩

/-- Model of `NotifyPlugin.Init` (plugin.py lines 53-88): parses the config
payload when it is truthy, stores it in `self.config` on success, and
returns `None` on success or an error string on failure (`JSONDecodeError`
and other exceptions produce differently prefixed messages). -/
def Init_impl (jl : String → Except String JVal) (st : PluginState) (c : JVal) :
    PluginState × List String × Outcome :=
  let l0 := plgLog ("Init() 被调用，配置: " ++ pyStr c)
  if pyTruthy c then
    match pyJsonLoads jl c with
    | .ok v =>
        (⟨v⟩, [l0, plgLog ("配置解析成功: " ++ pyStr v), plgLog "插件初始化成功"],
         .ok .jnull)
    | .error e =>
        if e.kind == "json.decoder.JSONDecodeError" then
          let em := "配置解析失败: " ++ e.msg
          (st, [l0, plgLog em], .ok (.jstr em))
        else
          let em := "初始化失败: " ++ e.msg
          (st, [l0, plgLog em], .ok (.jstr em))
  else (st, [l0, plgLog "插件初始化成功"], .ok .jnull)

/-- Model of `NotifyPlugin.Send` (plugin.py lines 113-147): parses the
message when truthy (otherwise uses the empty string) and returns `None`,
or an error string if parsing raised. -/
def Send_impl (jl : String → Except String JVal) (st : PluginState) (mj : JVal) :
    PluginState × List String × Outcome :=
  let l0 := plgLog "Send() 被调用"
  match (if pyTruthy mj then pyJsonLoads jl mj else .ok (.jstr "")) with
  | .ok msg =>
      (st, [l0, plgLog ("发送消息: " ++ pyStr msg), plgLog "消息发送成功"], .ok .jnull)
  | .error e =>
      let em := "发送消息失败: " ++ e.msg
      (st, [l0, plgLog em], .ok (.jstr em))

/-- Model of `NotifyPlugin.SendTemplate` (plugin.py lines 149-184). -/
def SendTemplate_impl (jl : String → Except String JVal) (st : PluginState)
    (t dj : JVal) : PluginState × List String × Outcome :=
  let l0 := plgLog "SendTemplate() 被调用"
  match (if pyTruthy dj then pyJsonLoads jl dj else .ok (.jobj [])) with
  | .ok d =>
      (st, [l0, plgLog ("发送模板消息: 模板=" ++ pyStr t ++ ", 数据=" ++ pyStr d),
            plgLog "模板消息发送成功"], .ok .jnull)
  | .error e =>
      let em := "发送模板消息失败: " ++ e.msg
      (st, [l0, plgLog em], .ok (.jstr em))

/-- Model of `NotifyPlugin.SendBatch` (plugin.py lines 186-218): parses the
message list when truthy (otherwise `[]`) and takes its `len`, which itself
raises `TypeError` when the parse produced a value without a length. -/
def SendBatch_impl (jl : String → Except String JVal) (st : PluginState)
    (msj : JVal) : PluginState × List String × Outcome :=
  let l0 := plgLog "SendBatch() 被调用"
  match (if pyTruthy msj then pyJsonLoads jl msj else .ok (.jarr [])) with
  | .ok ms =>
      match pyLen ms with
      | .ok n =>
          (st, [l0, plgLog ("批量发送 " ++ toString n ++ " 条消息"),
                plgLog "批量消息发送成功"], .ok .jnull)
      | .error e =>
          let em := "批量发送消息失败: " ++ e.msg
          (st, [l0, plgLog em], .ok (.jstr em))
  | .error e =>
      let em := "批量发送消息失败: " ++ e.msg
      (st, [l0, plgLog em], .ok (.jstr em))

/-- Model of `func(*params)` on a resolved plugin attribute: methods check
their positional arity (raising `TypeError` otherwise, `self` included in
the counts) and run their bodies; calling one of the five non-callable data
attributes raises `TypeError`.  Returns the state after the call, the lines
the call logged to stderr, and the outcome. -/
def invokeAttr (jl : String → Except String JVal) (st : PluginState) :
    PluginAttr → List JVal → PluginState × List String × Outcome
  | .fName, _ => (st, [], .exc (notCallableExc "str"))
  | .fVersion, _ => (st, [], .exc (notCallableExc "str"))
  | .fPluginType, _ => (st, [], .exc (notCallableExc "str"))
  | .fDescription, _ => (st, [], .exc (notCallableExc "str"))
  | .fConfig, _ => (st, [], .exc (notCallableExc "dict"))
  | .mDebug, [m] => (st, [plgLog (pyStr m)], .ok .jnull)
  | .mDebug, args => (st, [], .exc (arityExc "_debug" 2 (args.length + 1)))
  | .mName, [] => (st, [plgLog "Name() 被调用"], .ok (.jstr "python-notify"))
  | .mName, args => (st, [], .exc (arityExc "Name" 1 (args.length + 1)))
  | .mDescription, [] =>
      (st, [plgLog "Description() 被调用"], .ok (.jstr "Python 通知插件示例"))
  | .mDescription, args =>
      (st, [], .exc (arityExc "Description" 1 (args.length + 1)))
  | .mVersion, [] => (st, [plgLog "Version() 被调用"], .ok (.jstr "1.0.0"))
  | .mVersion, args => (st, [], .exc (arityExc "Version" 1 (args.length + 1)))
  | .mType, [] => (st, [plgLog "Type() 被调用"], .ok (.jstr "notify"))
  | .mType, args => (st, [], .exc (arityExc "Type" 1 (args.length + 1)))
  | .mInit, [c] => Init_impl jl st c
  | .mInit, args => (st, [], .exc (arityExc "Init" 2 (args.length + 1)))
  | .mCleanup, [] =>
      (st, [plgLog "Cleanup() 被调用", plgLog "插件清理成功"], .ok .jnull)
  | .mCleanup, args => (st, [], .exc (arityExc "Cleanup" 1 (args.length + 1)))
  | .mSend, [mj, _] => Send_impl jl st mj
  | .mSend, args => (st, [], .exc (arityExc "Send" 3 (args.length + 1)))
  | .mSendTemplate, [t, dj, _] => SendTemplate_impl jl st t dj
  | .mSendTemplate, args =>
      (st, [], .exc (arityExc "SendTemplate" 4 (args.length + 1)))
  | .mSendBatch, [msj, _] => SendBatch_impl jl st msj
  | .mSendBatch, args => (st, [], .exc (arityExc "SendBatch" 3 (args.length + 1)))

/-- Model of the return-value translation of `_call_method` (plugin.py lines
344-353).  The source condition is
`result is None or (isinstance(result, str) and result.startswith("错误") or result.startswith("失败"))`;
because `and` binds tighter than `or`, a value that is neither `None` nor a
string falls through to the bare `result.startswith("失败")` and raises
`AttributeError`.  On success it yields the `(result, error)` pair. -/
def translateResult : JVal → Except PyExc (JVal × JVal)
  | .jnull => .ok (.jnull, .jnull)
  | .jstr s =>
      if strStartsWith s "错误" || strStartsWith s "失败" then .ok (.jnull, .jstr s)
      else .ok (.jstr s, .jnull)
  | v => .error ⟨"AttributeError",
      pyTypeName v ++ " object has no attribute startswith"⟩

/-- The wire error string built by the `except` handler of `_call_method`
(plugin.py line 357): the fault description followed by the full
`traceback.format_exc()` text. -/
def wireFaultMsg (e : PyExc) : String :=
  "调用方法失败: " ++ e.msg ++ "\n" ++ format_exc e

/-- The `except` handler of `_call_method` (plugin.py lines 355-359): logs
the wire error string (which embeds the traceback) and returns it as the
`error` slot with a null `result`. -/
def catchCall (st : PluginState) (logs : List String) (e : PyExc) :
    PluginState × List String × JVal × JVal :=
  (st, logs ++ [srvLog (wireFaultMsg e)], .jnull, .jstr (wireFaultMsg e))

/-- The body of `_call_method` after a successful `hasattr` check: unpack
the params, invoke the attribute, translate the outcome; any exception along
the way is caught by `catchCall`. -/
def resolvedCall (jl : String → Except String JVal) (st : PluginState)
    (a : PluginAttr) (params : JVal) : PluginState × List String × JVal × JVal :=
  match pyUnpack params with
  | .error e => catchCall st [] e
  | .ok args =>
      let r := invokeAttr jl st a args
      match r.2.2 with
      | .exc e => catchCall r.1 r.2.1 e
      | .ok v =>
          match translateResult v with
          | .ok p => (r.1, r.2.1, p.1, p.2)
          | .error e => catchCall r.1 r.2.1 e

/-- Model of `SimpleRPCServer._call_method` (plugin.py lines 325-359).  The
`method` argument is whatever the request carried (a non-string raises
`AttributeError` at `method.split`, caught by the handler); a string is
stripped to its final dot segment and resolved with `hasattr`, failing with
the unknown-method error when absent.  Returns
(state after, logged lines, result slot, error slot). -/
def call_method (jl : String → Except String JVal) (st : PluginState)
    (method params : JVal) : PluginState × List String × JVal × JVal :=
  match method with
  | .jstr ms =>
      match attrOf (lastSegment ms) with
      | some a => resolvedCall jl st a params
      | none => (st, [], .jnull, .jstr ("方法 " ++ lastSegment ms ++ " 不存在"))
  | v => catchCall st []
      ⟨"AttributeError", pyTypeName v ++ " object has no attribute split"⟩

/-- The exception, if any, that reaches the `except` handler of
`_call_method` on the given inputs (the formalisation of "the resolution or
invocation raises an uncaught fault"). -/
def faultOf (jl : String → Except String JVal) (st : PluginState)
    (method params : JVal) : Option PyExc :=
  match method with
  | .jstr ms =>
      match attrOf (lastSegment ms) with
      | none => none
      | some a =>
          match pyUnpack params with
          | .error e => some e
          | .ok args =>
              match (invokeAttr jl st a args).2.2 with
              | .exc e => some e
              | .ok v =>
                  match translateResult v with
                  | .error e => some e
                  | .ok _ => none
  | v => some ⟨"AttributeError", pyTypeName v ++ " object has no attribute split"⟩

/-- One `recv` on the accepted connection, as the dispatch loop observes it:
the peer closed (empty read), the connection was reset, or a chunk of data
whose `json.loads` outcome is `parse` (`none` when the bytes are not valid
JSON).  The byte-level content and the UTF-8 decoding step are not modelled;
the oracle outcome of the external parser is. -/
inductive RecvOutcome where
  | closed
  | reset
  | bytes (parse : Option JVal)

/-- A Response Unit as built by `_handle_requests` (plugin.py lines 303-308):
the fixed `jsonrpc` tag, the echoed `id`, and the result/error slots. -/
structure Response where
  jsonrpc : String
  id : JVal
  result : JVal
  error : JVal

/-- One observable step of the process: a read or a send on the accepted
connection, a stderr log line, a stdout write, the accept of the single
client connection, the closing of the client or listening socket, or a
process exit with the given code. -/
inductive Event where
  | readEv (r : RecvOutcome)
  | logEv (s : String)
  | sendEv (resp : Response)
  | stdoutEv (s : String)
  | acceptEv
  | closeClientEv
  | closeServerEv
  | exitEv (code : Nat)

/-- Model of `SimpleRPCServer._handle_requests` (plugin.py lines 272-323)
over the sequence of reads the connection delivers (an exhausted list means
the loop is still blocked waiting; a peer close arrives as `.closed`).
Per read: an empty read or a reset ends the loop; bytes that fail to parse
as JSON are logged and skipped; a parsed JSON object is dispatched through
`_call_method` and answered with a Response Unit; parsed JSON that is not an
object raises `AttributeError` at `request.get`, which the outer handler
logs (with a traceback) before breaking out of the loop.  Returns the event
trace and the final plugin state. -/
def handle_requests (jl : String → Except String JVal) (st : PluginState) :
    List RecvOutcome → List Event × PluginState
  | [] => ([], st)
  | r :: rs =>
    match r with
    | .closed => ([.readEv .closed, .logEv (srvLog "连接关闭")], st)
    | .reset => ([.readEv .reset, .logEv (srvLog "连接被重置")], st)
    | .bytes none =>
        let rest := handle_requests jl st rs
        (.readEv r :: .logEv (srvLog "无法解析请求") :: rest.1, rest.2)
    | .bytes (some v) =>
        match v with
        | .jobj fs =>
            let mv := pyGetD fs "method" (.jstr "")
            let pv := pyGetD fs "params" (.jarr [])
            let rid := pyGetD fs "id" (.jnum 0)
            let c := call_method jl st mv pv
            let resp : Response := ⟨"2.0", rid, c.2.2.1, c.2.2.2⟩
            let rest := handle_requests jl c.1 rs
            (.readEv r ::
             .logEv (srvLog ("收到请求: method=" ++ pyStr mv ++ ", params=" ++ pyStr pv)) ::
             (c.2.1.map .logEv ++
              .sendEv resp :: .logEv (srvLog "响应已发送") :: rest.1),
             rest.2)
        | _ =>
            let e : PyExc :=
              ⟨"AttributeError", pyTypeName v ++ " object has no attribute get"⟩
            ([.readEv r, .logEv (srvLog ("处理请求错误: " ++ e.msg)),
              .logEv (format_exc e)], st)

/-- The expected value of the `ARCADE_RPC_PLUGIN` environment variable
(plugin.py line 384). -/
def magicCookieValue : String := "arcade-rpc-plugin-protocol"

/-- Model of `check_environment` (plugin.py lines 380-392) on the two
environment values (`none` = variable unset): returns the stderr/exit events
it produces and whether the check passed.  The version check is Python
substring membership of `"2"` in the `PLUGIN_PROTOCOL_VERSIONS` value
(default `"1"`), which for a single character is character membership. -/
def check_environment (cookie pv : Option String) : List Event × Bool :=
  if cookie == some magicCookieValue then
    if (pv.getD "1").toList.contains '2' then ([], true)
    else ([.logEv "错误: 不支持的协议版本", .exitEv 1], false)
  else
    ([.logEv "错误: 环境变量 ARCADE_RPC_PLUGIN 不正确",
      .logEv "提示: 此插件必须由 Arcade 主程序启动", .exitEv 1], false)

/-- The Handshake Line written to stdout (plugin.py line 250): pipe-separated
core version, app version, transport, bound address, wire-format tag. -/
def handshakeLine (port : Nat) : String :=
  "1|2|tcp|127.0.0.1:" ++ toString port ++ "|grpc\n"

/-- Model of `SimpleRPCServer.start` (plugin.py lines 236-270) for a server
whose listener was bound to the given ephemeral port: writes the Handshake
Line, accepts the single client connection, runs the dispatch loop, and in
the `finally` clause runs `stop` (plugin.py lines 361-377), which closes the
client socket and then the listening socket. -/
def serverStart (jl : String → Except String JVal) (port : Nat)
    (reads : List RecvOutcome) : List Event :=
  .stdoutEv (handshakeLine port) ::
  .logEv (srvLog ("服务器启动在 127.0.0.1:" ++ toString port)) ::
  .logEv (srvLog "等待客户端连接...") ::
  .acceptEv ::
  .logEv (srvLog "客户端已连接") ::
  ((handle_requests jl initialPlugin reads).1 ++
   [.closeClientEv, .closeServerEv, .logEv (srvLog "服务器已停止")])

/-- The stderr lines of the `plugin.Cleanup()` call in the `finally` clause
of `main` (plugin.py lines 417-419). -/
def cleanupEvents : List Event :=
  [.logEv (plgLog "Cleanup() 被调用"), .logEv (plgLog "插件清理成功")]

/-- Model of `main` (plugin.py lines 395-419): the environment check runs
before anything is written to stdout (`sys.exit(1)` on mismatch propagates —
the check is outside the `try`), then the plugin instance is created, the
server runs, and the plugin is cleaned up. -/
def mainTrace (cookie pv : Option String) (port : Nat)
    (jl : String → Except String JVal) (reads : List RecvOutcome) : List Event :=
  .logEv "[Main] Python 插件启动中..." ::
  (let c := check_environment cookie pv
   c.1 ++
   (if c.2 then
      .logEv (plgLog "插件实例已创建") :: (serverStart jl port reads ++ cleanupEvents)
    else []))

/-- The responses sent on the wire during an event trace, in order. -/
def sendsOf (evs : List Event) : List Response :=
  evs.filterMap fun e => match e with | .sendEv resp => some resp | _ => none

/-- The read/send skeleton of an event trace: `true` per read, `false` per
send, everything else dropped. -/
def rsSkeleton (evs : List Event) : List Bool :=
  evs.filterMap fun e =>
    match e with
    | .readEv _ => some true
    | .sendEv _ => some false
    | _ => none

/-- The skeleton of `n` strictly alternating read/response exchanges. -/
def altPattern : Nat → List Bool
  | 0 => []
  | n + 1 => true :: false :: altPattern n

/-- Whether a read delivers a well-formed Request Unit: a JSON object whose
`method` is a string (or absent, defaulting to `""`) and whose `params` is
an array (or absent, defaulting to `[]`); the `id` is opaque. -/
def isRequestUnit : RecvOutcome → Bool
  | .bytes (some (.jobj fs)) =>
      (match pyGetD fs "method" (.jstr "") with | .jstr _ => true | _ => false) &&
      (match pyGetD fs "params" (.jarr []) with | .jarr _ => true | _ => false)
  | _ => false

/-- The correlation id of a read that carries a request (the `id` field,
defaulting to `0` as `request.get("id", 0)` does). -/
def reqIdOf : RecvOutcome → JVal
  | .bytes (some (.jobj fs)) => pyGetD fs "id" (.jnum 0)
  | _ => .jnum 0

/-- Modelled from the spec: the Capability Contract operation enumeration of
spec sections 3 and 6 (`Identify/Describe/Version/Kind/Initialize/Cleanup`
plus the three domain operations), written with the operation names the
reference code uses.  This is the spec-side operation set against which the
code-side resolver (`attrOf`) is compared. -/
def specCapabilityOps : List String :=
  ["Name", "Description", "Version", "Type", "Init", "Cleanup",
   "Send", "SendTemplate", "SendBatch"]

/-- Whether the startup credential check of `check_environment` passes. -/
def checkEnvPass (cookie pv : Option String) : Bool :=
  (check_environment cookie pv).2

/-- Whether an event is the accept of a client connection. -/
def isAcceptEv : Event → Bool
  | .acceptEv => true
  | _ => false

/-- How many connections are accepted during an event trace. -/
def acceptCount (evs : List Event) : Nat := evs.countP isAcceptEv

/-- Whether a returned value is a string carrying one of the designated
failure markers of the return convention (plugin.py line 348). -/
def isFailureMarked : JVal → Bool
  | .jstr s => strStartsWith s "错误" || strStartsWith s "失败"
  | _ => false

/-- A concrete `json.loads` oracle used to instantiate theorems: it reports
a decode failure on every string (the message CPython gives on empty input). -/
def jlOracle : String → Except String JVal :=
  fun _ => .error "Expecting value: line 1 column 1 (char 0)"

theorem catchCall_eq (st : PluginState) (logs : List String) (e : PyExc) :
    catchCall st logs e =
      (st, logs ++ [srvLog (wireFaultMsg e)], .jnull, .jstr (wireFaultMsg e)) := rfl

theorem translateResult_ok_nulls {v : JVal} {p : JVal × JVal}
    (h : translateResult v = .ok p) : p.1 = .jnull ∨ p.2 = .jnull := by
  cases v <;> simp [translateResult] at h <;> try (cases h; simp)
  case jstr s =>
    split at h <;> (cases h; simp)

theorem resolvedCall_nulls (jl : String → Except String JVal) (st : PluginState)
    (a : PluginAttr) (params : JVal) :
    (resolvedCall jl st a params).2.2.1 = .jnull ∨
    (resolvedCall jl st a params).2.2.2 = .jnull := by
  unfold resolvedCall
  cases hU : pyUnpack params <;> simp only [hU]
  case error e => simp [catchCall_eq]
  case ok args =>
    cases hI : (invokeAttr jl st a args).2.2 <;> simp only [hI]
    case exc e => simp [catchCall_eq]
    case ok v =>
      cases hT : translateResult v <;> simp only [hT]
      case error e => simp [catchCall_eq]
      case ok p => exact translateResult_ok_nulls hT

theorem call_method_nulls (jl : String → Except String JVal) (st : PluginState)
    (method params : JVal) :
    (call_method jl st method params).2.2.1 = .jnull ∨
    (call_method jl st method params).2.2.2 = .jnull := by
  cases method <;> simp [call_method, catchCall_eq]
  case jstr ms =>
    cases hA : attrOf (lastSegment ms)
    case none => simp
    case some a => exact resolvedCall_nulls jl st a params

theorem sendsOf_cons_read (r : RecvOutcome) (evs : List Event) :
    sendsOf (.readEv r :: evs) = sendsOf evs := by simp [sendsOf]

theorem sendsOf_cons_log (s : String) (evs : List Event) :
    sendsOf (.logEv s :: evs) = sendsOf evs := by simp [sendsOf]

theorem sendsOf_cons_send (resp : Response) (evs : List Event) :
    sendsOf (.sendEv resp :: evs) = resp :: sendsOf evs := by simp [sendsOf]

theorem sendsOf_logEvs (ls : List String) (evs : List Event) :
    sendsOf (ls.map Event.logEv ++ evs) = sendsOf evs := by
  induction ls with
  | nil => simp
  | cons a as ih => simpa [sendsOf_cons_log] using ih

theorem handle_step_badparse (jl : String → Except String JVal)
    (st : PluginState) (rs : List RecvOutcome) :
    handle_requests jl st (.bytes none :: rs) =
      (.readEv (.bytes none) :: .logEv (srvLog "无法解析请求") ::
         (handle_requests jl st rs).1,
       (handle_requests jl st rs).2) := rfl

theorem handle_step_obj (jl : String → Except String JVal) (st : PluginState)
    (fs : List (String × JVal)) (rs : List RecvOutcome) :
    handle_requests jl st (.bytes (some (.jobj fs)) :: rs) =
      (.readEv (.bytes (some (.jobj fs))) ::
       .logEv (srvLog ("收到请求: method=" ++ pyStr (pyGetD fs "method" (.jstr "")) ++
          ", params=" ++ pyStr (pyGetD fs "params" (.jarr [])))) ::
       ((call_method jl st (pyGetD fs "method" (.jstr ""))
           (pyGetD fs "params" (.jarr []))).2.1.map .logEv ++
        .sendEv ⟨"2.0", pyGetD fs "id" (.jnum 0),
           (call_method jl st (pyGetD fs "method" (.jstr ""))
              (pyGetD fs "params" (.jarr []))).2.2.1,
           (call_method jl st (pyGetD fs "method" (.jstr ""))
              (pyGetD fs "params" (.jarr []))).2.2.2⟩ ::
        .logEv (srvLog "响应已发送") ::
        (handle_requests jl
           (call_method jl st (pyGetD fs "method" (.jstr ""))
              (pyGetD fs "params" (.jarr []))).1 rs).1),
       (handle_requests jl
          (call_method jl st (pyGetD fs "method" (.jstr ""))
             (pyGetD fs "params" (.jarr []))).1 rs).2) := rfl

theorem handle_sends_nulls (jl : String → Except String JVal) :
    ∀ (reads : List RecvOutcome) (st : PluginState) (resp : Response),
      resp ∈ sendsOf (handle_requests jl st reads).1 →
      resp.result = .jnull ∨ resp.error = .jnull := by
  intro reads
  induction reads with
  | nil => intro st resp h; simp [handle_requests, sendsOf] at h
  | cons r rs ih =>
    intro st resp h
    rcases r with _ | _ | p
    · simp [handle_requests, sendsOf] at h
    · simp [handle_requests, sendsOf] at h
    · rcases p with _ | v
      · rw [handle_step_badparse, sendsOf_cons_read, sendsOf_cons_log] at h
        exact ih st resp h
      · cases v with
        | jobj fs =>
            rw [handle_step_obj, sendsOf_cons_read, sendsOf_cons_log,
                sendsOf_logEvs, sendsOf_cons_send, sendsOf_cons_log] at h
            rcases List.mem_cons.mp h with he | hm
            · subst he
              exact call_method_nulls jl st _ _
            · exact ih _ resp hm
        | jnull => simp [handle_requests, sendsOf] at h
        | jbool b => simp [handle_requests, sendsOf] at h
        | jnum n => simp [handle_requests, sendsOf] at h
        | jstr s => simp [handle_requests, sendsOf] at h
        | jarr xs => simp [handle_requests, sendsOf] at h

/-- C4: for every request processed by the Dispatch Loop, the method-call
path never produces a (result, error) pair with both slots non-null, and
every Response Unit sent on the wire has result or error null. -/
theorem c4_never_both_nonnull :
    (∀ (jl : String → Except String JVal) (st : PluginState) (method params : JVal),
       (call_method jl st method params).2.2.1 = .jnull ∨
       (call_method jl st method params).2.2.2 = .jnull) ∧
    (∀ (jl : String → Except String JVal) (st : PluginState)
       (reads : List RecvOutcome) (resp : Response),
       resp ∈ sendsOf (handle_requests jl st reads).1 →
       resp.result = .jnull ∨ resp.error = .jnull) :=
  ⟨call_method_nulls,
   fun jl st reads resp h => handle_sends_nulls jl reads st resp h⟩

theorem c4_witness :
    (⟨"2.0", .jnum 3, .jstr "python-notify", .jnull⟩ : Response).result = .jnull ∨
    (⟨"2.0", .jnum 3, .jstr "python-notify", .jnull⟩ : Response).error = .jnull :=
  c4_never_both_nonnull.2 jlOracle initialPlugin
    [.bytes (some (.jobj [("method", .jstr "Name"), ("params", .jarr []), ("id", .jnum 3)]))]
    ⟨"2.0", .jnum 3, .jstr "python-notify", .jnull⟩ (List.Mem.head _)

/-- C10: method resolution is exactly the `hasattr` check on the stripped
name — a resolved name (any plugin attribute, underscore-prefixed helpers
and data fields included) proceeds to invocation, an unresolved one gets the
unknown-method error; in particular a request invoking the `_debug` helper
with one string parameter succeeds with null result and null error. -/
theorem c10_resolution_is_hasattr :
    (∀ (jl : String → Except String JVal) (st : PluginState) (ms : String)
       (params : JVal) (a : PluginAttr), attrOf (lastSegment ms) = some a →
       call_method jl st (.jstr ms) params = resolvedCall jl st a params) ∧
    (∀ (jl : String → Except String JVal) (st : PluginState) (ms : String)
       (params : JVal), attrOf (lastSegment ms) = none →
       call_method jl st (.jstr ms) params =
         (st, [], .jnull, .jstr ("方法 " ++ lastSegment ms ++ " 不存在"))) ∧
    (∀ (jl : String → Except String JVal) (st : PluginState) (s : String),
       call_method jl st (.jstr "_debug") (.jarr [.jstr s]) =
         (st, [plgLog s], .jnull, .jnull)) := by
  refine ⟨?_, ?_, ?_⟩
  · intro jl st ms params a h; simp [call_method, h]
  · intro jl st ms params h; simp [call_method, h]
  · intro jl st s; rfl

theorem c10_witness :
    call_method jlOracle initialPlugin (.jstr "Plugin.Send") (.jarr [.jnull, .jnull]) =
      resolvedCall jlOracle initialPlugin .mSend (.jarr [.jnull, .jnull]) ∧
    call_method jlOracle initialPlugin (.jstr "Bogus") (.jarr []) =
      (initialPlugin, [], .jnull, .jstr ("方法 " ++ lastSegment "Bogus" ++ " 不存在")) ∧
    call_method jlOracle initialPlugin (.jstr "_debug") (.jarr [.jstr "hello"]) =
      (initialPlugin, [plgLog "hello"], .jnull, .jnull) :=
  ⟨c10_resolution_is_hasattr.1 jlOracle initialPlugin "Plugin.Send" _ .mSend rfl,
   c10_resolution_is_hasattr.2.1 jlOracle initialPlugin "Bogus" _ rfl,
   c10_resolution_is_hasattr.2.2 jlOracle initialPlugin "hello"⟩

/-- C6 counterexample: `_debug` is not one of the Capability Contract
operations the spec enumerates, yet a request invoking it is answered with a
null error (and null result) — not with an unknown-method error — so
resolution is not membership in the contract operation set. -/
theorem c6_counterexample :
    specCapabilityOps.contains "_debug" = false ∧
    (call_method jlOracle initialPlugin (.jstr "_debug") (.jarr [.jstr "hi"])).2.2.2 = .jnull ∧
    (call_method jlOracle initialPlugin (.jstr "_debug") (.jarr [.jstr "hi"])).2.2.1 = .jnull :=
  ⟨rfl, rfl, rfl⟩

/-- C6 amended: a request whose stripped method name is not an attribute of
the plugin object gets the unknown-method error with null result, and the
session continues with the next read. -/
theorem c6_amended_unknown_attr :
    ∀ (jl : String → Except String JVal) (st : PluginState) (ms : String)
      (params : JVal) (fs : List (String × JVal)) (rs : List RecvOutcome),
      attrOf (lastSegment ms) = none →
      (call_method jl st (.jstr ms) params =
         (st, [], .jnull, .jstr ("方法 " ++ lastSegment ms ++ " 不存在"))) ∧
      (pyGetD fs "method" (.jstr "") = .jstr ms →
        handle_requests jl st (.bytes (some (.jobj fs)) :: rs) =
          (.readEv (.bytes (some (.jobj fs))) ::
           .logEv (srvLog ("收到请求: method=" ++ ms ++ ", params=" ++
              pyStr (pyGetD fs "params" (.jarr [])))) ::
           .sendEv ⟨"2.0", pyGetD fs "id" (.jnum 0), .jnull,
              .jstr ("方法 " ++ lastSegment ms ++ " 不存在")⟩ ::
           .logEv (srvLog "响应已发送") :: (handle_requests jl st rs).1,
           (handle_requests jl st rs).2)) := by
  intro jl st ms params fs rs h
  constructor
  · simp [call_method, h]
  · intro hm
    rw [handle_step_obj, hm]
    simp [call_method, h, pyStr]

theorem c6_amended_witness :
    call_method jlOracle initialPlugin (.jstr "Bogus2") (.jarr []) =
      (initialPlugin, [], .jnull, .jstr ("方法 " ++ lastSegment "Bogus2" ++ " 不存在")) ∧
    handle_requests jlOracle initialPlugin
        [.bytes (some (.jobj [("method", .jstr "Bogus2"), ("id", .jnum 2)]))] =
      (.readEv (.bytes (some (.jobj [("method", .jstr "Bogus2"), ("id", .jnum 2)]))) ::
       .logEv (srvLog ("收到请求: method=" ++ "Bogus2" ++ ", params=" ++
          pyStr (pyGetD [("method", .jstr "Bogus2"), ("id", .jnum 2)] "params" (.jarr [])))) ::
       .sendEv ⟨"2.0", .jnum 2, .jnull, .jstr ("方法 " ++ lastSegment "Bogus2" ++ " 不存在")⟩ ::
       .logEv (srvLog "响应已发送") :: (handle_requests jlOracle initialPlugin []).1,
       (handle_requests jlOracle initialPlugin []).2) :=
  ⟨(c6_amended_unknown_attr jlOracle initialPlugin "Bogus2" (.jarr [])
      [("method", .jstr "Bogus2"), ("id", .jnum 2)] [] rfl).1,
   (c6_amended_unknown_attr jlOracle initialPlugin "Bogus2" (.jarr [])
      [("method", .jstr "Bogus2"), ("id", .jnum 2)] [] rfl).2 rfl⟩

/-- C9: a request whose resolved operation returns the `None` sentinel is
answered on the wire with null result and null error. -/
theorem c9_none_sentinel :
    ∀ (jl : String → Except String JVal) (st : PluginState)
      (fs : List (String × JVal)) (rs : List RecvOutcome) (ms : String)
      (a : PluginAttr) (args : List JVal) (st2 : PluginState) (logs : List String),
      pyGetD fs "method" (.jstr "") = .jstr ms →
      attrOf (lastSegment ms) = some a →
      pyUnpack (pyGetD fs "params" (.jarr [])) = .ok args →
      invokeAttr jl st a args = (st2, logs, .ok .jnull) →
      call_method jl st (.jstr ms) (pyGetD fs "params" (.jarr [])) =
        (st2, logs, .jnull, .jnull) ∧
      handle_requests jl st (.bytes (some (.jobj fs)) :: rs) =
        (.readEv (.bytes (some (.jobj fs))) ::
         .logEv (srvLog ("收到请求: method=" ++ ms ++ ", params=" ++
            pyStr (pyGetD fs "params" (.jarr [])))) ::
         (logs.map .logEv ++
          .sendEv ⟨"2.0", pyGetD fs "id" (.jnum 0), .jnull, .jnull⟩ ::
          .logEv (srvLog "响应已发送") :: (handle_requests jl st2 rs).1),
         (handle_requests jl st2 rs).2) := by
  intro jl st fs rs ms a args st2 logs hm hA hU hI
  have hc : call_method jl st (.jstr ms) (pyGetD fs "params" (.jarr [])) =
      (st2, logs, .jnull, .jnull) := by
    simp [call_method, hA, resolvedCall, hU, hI, translateResult]
  refine ⟨hc, ?_⟩
  rw [handle_step_obj, hm, hc]
  simp [pyStr]

theorem c9_witness :
    call_method jlOracle initialPlugin (.jstr "Cleanup") (.jarr []) =
      (initialPlugin, [plgLog "Cleanup() 被调用", plgLog "插件清理成功"], .jnull, .jnull) :=
  (c9_none_sentinel jlOracle initialPlugin
    [("method", .jstr "Cleanup"), ("params", .jarr []), ("id", .jnum 7)] []
    "Cleanup" .mCleanup [] initialPlugin
    [plgLog "Cleanup() 被调用", plgLog "插件清理成功"] rfl rfl rfl rfl).1

theorem Init_impl_ok_shape (jl : String → Except String JVal) (st : PluginState)
    (c : JVal) : ∀ st2 logs v, Init_impl jl st c = (st2, logs, .ok v) →
    v = .jnull ∨ ∃ s, v = .jstr s := by
  intro st2 logs v h
  unfold Init_impl at h
  split at h
  · split at h
    · simp at h
      exact Or.inl h.2.2.symm
    · split at h
      · simp at h
        exact Or.inr ⟨_, h.2.2.symm⟩
      · simp at h
        exact Or.inr ⟨_, h.2.2.symm⟩
  · simp at h
    exact Or.inl h.2.2.symm

theorem Send_impl_ok_shape (jl : String → Except String JVal) (st : PluginState)
    (mj : JVal) : ∀ st2 logs v, Send_impl jl st mj = (st2, logs, .ok v) →
    v = .jnull ∨ ∃ s, v = .jstr s := by
  intro st2 logs v h
  unfold Send_impl at h
  split at h
  · simp at h
    exact Or.inl h.2.2.symm
  · simp at h
    exact Or.inr ⟨_, h.2.2.symm⟩

theorem SendTemplate_impl_ok_shape (jl : String → Except String JVal)
    (st : PluginState) (t dj : JVal) : ∀ st2 logs v,
    SendTemplate_impl jl st t dj = (st2, logs, .ok v) →
    v = .jnull ∨ ∃ s, v = .jstr s := by
  intro st2 logs v h
  unfold SendTemplate_impl at h
  split at h
  · simp at h
    exact Or.inl h.2.2.symm
  · simp at h
    exact Or.inr ⟨_, h.2.2.symm⟩

theorem SendBatch_impl_ok_shape (jl : String → Except String JVal)
    (st : PluginState) (msj : JVal) : ∀ st2 logs v,
    SendBatch_impl jl st msj = (st2, logs, .ok v) →
    v = .jnull ∨ ∃ s, v = .jstr s := by
  intro st2 logs v h
  unfold SendBatch_impl at h
  split at h
  · split at h
    · simp at h
      exact Or.inl h.2.2.symm
    · simp at h
      exact Or.inr ⟨_, h.2.2.symm⟩
  · simp at h
    exact Or.inr ⟨_, h.2.2.symm⟩

theorem invokeAttr_ok_shape (jl : String → Except String JVal) (st : PluginState) :
    ∀ (a : PluginAttr) (args : List JVal) st2 logs v,
      invokeAttr jl st a args = (st2, logs, .ok v) →
      v = .jnull ∨ ∃ s, v = .jstr s := by
  intro a args st2 logs v h
  cases a <;> rcases args with _ | ⟨a1, _ | ⟨a2, _ | ⟨a3, _ | ⟨a4, rest⟩⟩⟩⟩ <;>
    simp [invokeAttr] at h <;>
    first
    | exact Or.inl h.2.2.symm
    | exact Or.inr ⟨_, h.2.2.symm⟩
    | exact Or.inl h.2.2
    | exact Or.inr ⟨_, h.2.2⟩
    | exact Init_impl_ok_shape jl st a1 st2 logs v h
    | exact Send_impl_ok_shape jl st a1 st2 logs v h
    | exact SendTemplate_impl_ok_shape jl st a1 a2 st2 logs v h
    | exact SendBatch_impl_ok_shape jl st a1 st2 logs v h

/-- C1: whenever an invoked operation returns an actual value (neither the
`None` sentinel nor an exception), the translator puts it in the result slot
with a null error — unless it is a string carrying a designated failure
marker, in which case it goes to the error slot with a null result. -/
theorem c1_translator_on_value :
    ∀ (jl : String → Except String JVal) (st : PluginState) (a : PluginAttr)
      (args : List JVal) (st2 : PluginState) (logs : List String) (v : JVal),
      invokeAttr jl st a args = (st2, logs, .ok v) → v ≠ .jnull →
      (isFailureMarked v = true → translateResult v = .ok (.jnull, v)) ∧
      (isFailureMarked v = false → translateResult v = .ok (v, .jnull)) := by
  intro jl st a args st2 logs v h hne
  rcases invokeAttr_ok_shape jl st a args st2 logs v h with h0 | ⟨s, rfl⟩
  · exact absurd h0 hne
  · constructor <;> intro hm <;>
      simp [isFailureMarked] at hm <;> simp [translateResult, hm]

theorem c1_witness :
    translateResult (.jstr "python-notify") = .ok (.jstr "python-notify", .jnull) :=
  (c1_translator_on_value jlOracle initialPlugin .mName [] initialPlugin
     [plgLog "Name() 被调用"] (.jstr "python-notify") rfl
     (fun h => JVal.noConfusion h)).2 rfl

/-- C2 counterexample: a faulting invocation (calling `Name` with one
argument raises `TypeError`) produces a wire response whose error field
contains the full (non-empty) `traceback.format_exc()` text — the trace is
not confined to the log channel. -/
theorem c2_counterexample :
    (call_method jlOracle initialPlugin (.jstr "Name") (.jarr [.jnull])).2.2.2 =
      .jstr ("调用方法失败: " ++ (arityExc "Name" 1 2).msg ++ "\n" ++
             format_exc (arityExc "Name" 1 2)) ∧
    format_exc (arityExc "Name" 1 2) ≠ "" :=
  ⟨rfl, by decide⟩

/-- C2 amended: on any uncaught fault during resolution/invocation the loop
still answers with a well-formed response whose error string captures the
fault description, and that string — which embeds the full traceback — is
also written to the log channel. -/
theorem catchCall_spec (st : PluginState) (logs : List String) (e : PyExc) :
    ∃ st2 logs2, catchCall st logs e = (st2, logs2, .jnull, .jstr (wireFaultMsg e)) ∧
      srvLog (wireFaultMsg e) ∈ logs2 :=
  ⟨st, logs ++ [srvLog (wireFaultMsg e)], rfl,
   List.mem_append_right _ (List.Mem.head _)⟩

theorem c2_amended_fault_response :
    ∀ (jl : String → Except String JVal) (st : PluginState) (method params : JVal)
      (e : PyExc), faultOf jl st method params = some e →
      ∃ st2 logs, call_method jl st method params =
          (st2, logs, .jnull, .jstr (wireFaultMsg e)) ∧
        srvLog (wireFaultMsg e) ∈ logs := by
  intro jl st method params e h
  cases method with
  | jstr ms =>
      unfold faultOf at h
      unfold call_method
      cases hA : attrOf (lastSegment ms) <;> simp only [hA] at h ⊢
      case none => cases h
      case some a =>
        unfold resolvedCall
        cases hU : pyUnpack params <;> simp only [hU] at h ⊢
        case error e0 =>
          obtain rfl : e0 = e := by injection h
          exact catchCall_spec _ _ _
        case ok args =>
          cases hI : (invokeAttr jl st a args).2.2 <;> simp only [hI] at h ⊢
          case exc e0 =>
            obtain rfl : e0 = e := by injection h
            exact catchCall_spec _ _ _
          case ok v =>
            cases hT : translateResult v <;> simp only [hT] at h ⊢
            case error e0 =>
              obtain rfl : e0 = e := by injection h
              exact catchCall_spec _ _ _
            case ok p => cases h
  | jnull =>
      simp only [faultOf, Option.some.injEq] at h
      subst h
      exact catchCall_spec st [] _
  | jbool b =>
      simp only [faultOf, Option.some.injEq] at h
      subst h
      exact catchCall_spec st [] _
  | jnum n =>
      simp only [faultOf, Option.some.injEq] at h
      subst h
      exact catchCall_spec st [] _
  | jarr xs =>
      simp only [faultOf, Option.some.injEq] at h
      subst h
      exact catchCall_spec st [] _
  | jobj fs =>
      simp only [faultOf, Option.some.injEq] at h
      subst h
      exact catchCall_spec st [] _

theorem c2_amended_witness :
    ∃ st2 logs, call_method jlOracle initialPlugin (.jstr "Name") (.jarr [.jnull]) =
        (st2, logs, .jnull, .jstr (wireFaultMsg (arityExc "Name" 1 2))) ∧
      srvLog (wireFaultMsg (arityExc "Name" 1 2)) ∈ logs :=
  c2_amended_fault_response jlOracle initialPlugin (.jstr "Name") (.jarr [.jnull])
    (arityExc "Name" 1 2) rfl

/-- C3 counterexample: a read whose bytes parse as the JSON value `5` — not
a valid Request Unit — terminates the session: the loop breaks after logging
the `AttributeError`, the following well-formed request is never read, and
no response is ever sent. -/
theorem c3_counterexample :
    isRequestUnit (.bytes (some (.jnum 5))) = false ∧
    (handle_requests jlOracle initialPlugin
       [.bytes (some (.jnum 5)),
        .bytes (some (.jobj [("method", .jstr "Name"), ("params", .jarr []),
                             ("id", .jnum 1)]))]).1 =
      [.readEv (.bytes (some (.jnum 5))),
       .logEv (srvLog "处理请求错误: int object has no attribute get"),
       .logEv (format_exc ⟨"AttributeError", "int object has no attribute get"⟩)] ∧
    sendsOf (handle_requests jlOracle initialPlugin
       [.bytes (some (.jnum 5)),
        .bytes (some (.jobj [("method", .jstr "Name"), ("params", .jarr []),
                             ("id", .jnum 1)]))]).1 = [] :=
  ⟨rfl, rfl, rfl⟩

/-- C3 amended: a read whose bytes fail to parse as JSON is logged and
skipped, the loop going on to the next read with unchanged state; but a read
that parses to a JSON value that is not an object terminates the session. -/
theorem c3_amended_parse_failure :
    ∀ (jl : String → Except String JVal) (st : PluginState)
      (rs : List RecvOutcome) (v : JVal),
      (handle_requests jl st (.bytes none :: rs) =
        (.readEv (.bytes none) :: .logEv (srvLog "无法解析请求") ::
           (handle_requests jl st rs).1,
         (handle_requests jl st rs).2)) ∧
      ((∀ fs, v ≠ .jobj fs) →
        (handle_requests jl st (.bytes (some v) :: rs)).1 =
          [.readEv (.bytes (some v)),
           .logEv (srvLog ("处理请求错误: " ++ pyTypeName v ++
              " object has no attribute get")),
           .logEv (format_exc ⟨"AttributeError",
              pyTypeName v ++ " object has no attribute get"⟩)]) := by
  intro jl st rs v
  refine ⟨handle_step_badparse jl st rs, ?_⟩
  intro hv
  cases v with
  | jobj fs => exact absurd rfl (hv fs)
  | jnull => rfl
  | jbool b => rfl
  | jnum n => rfl
  | jstr s => rfl
  | jarr xs => rfl

theorem c3_amended_witness :
    (handle_requests jlOracle initialPlugin
        [.bytes (some (.jbool true))]).1 =
      [.readEv (.bytes (some (.jbool true))),
       .logEv (srvLog ("处理请求错误: " ++ pyTypeName (.jbool true) ++
          " object has no attribute get")),
       .logEv (format_exc ⟨"AttributeError",
          pyTypeName (.jbool true) ++ " object has no attribute get"⟩)] :=
  (c3_amended_parse_failure jlOracle initialPlugin [] (.jbool true)).2
    (fun _ h => JVal.noConfusion h)

theorem rsSkeleton_cons_read (r : RecvOutcome) (evs : List Event) :
    rsSkeleton (.readEv r :: evs) = true :: rsSkeleton evs := by simp [rsSkeleton]

theorem rsSkeleton_cons_log (s : String) (evs : List Event) :
    rsSkeleton (.logEv s :: evs) = rsSkeleton evs := by simp [rsSkeleton]

theorem rsSkeleton_cons_send (resp : Response) (evs : List Event) :
    rsSkeleton (.sendEv resp :: evs) = false :: rsSkeleton evs := by
  simp [rsSkeleton]

theorem rsSkeleton_logEvs (ls : List String) (evs : List Event) :
    rsSkeleton (ls.map Event.logEv ++ evs) = rsSkeleton evs := by
  induction ls with
  | nil => simp
  | cons a as ih => simpa [rsSkeleton_cons_log] using ih

theorem isRequestUnit_shape {r : RecvOutcome} (h : isRequestUnit r = true) :
    ∃ fs, r = .bytes (some (.jobj fs)) := by
  cases r with
  | closed => simp [isRequestUnit] at h
  | reset => simp [isRequestUnit] at h
  | bytes p =>
      cases p with
      | none => simp [isRequestUnit] at h
      | some v =>
          cases v with
          | jobj fs => exact ⟨fs, rfl⟩
          | jnull => simp [isRequestUnit] at h
          | jbool b => simp [isRequestUnit] at h
          | jnum n => simp [isRequestUnit] at h
          | jstr s => simp [isRequestUnit] at h
          | jarr xs => simp [isRequestUnit] at h

/-- C5: a sequence of well-formed requests delivered one at a time is
answered with exactly one response per request, echoing each request's id in
arrival order, and the loop strictly alternates read then send — every
response is fully sent before the next request is read. -/
theorem c5_ordered_responses :
    ∀ (jl : String → Except String JVal) (reads : List RecvOutcome)
      (st : PluginState),
      (∀ r ∈ reads, isRequestUnit r = true) →
      (sendsOf (handle_requests jl st reads).1).map Response.id =
        reads.map reqIdOf ∧
      rsSkeleton (handle_requests jl st reads).1 = altPattern reads.length := by
  intro jl reads
  induction reads with
  | nil => intro st _; simp [handle_requests, sendsOf, rsSkeleton, altPattern]
  | cons r rs ih =>
    intro st h
    obtain ⟨fs, rfl⟩ := isRequestUnit_shape (h r (List.mem_cons_self r rs))
    have ih2 := ih (call_method jl st (pyGetD fs "method" (.jstr ""))
        (pyGetD fs "params" (.jarr []))).1
      (fun x hx => h x (List.mem_cons_of_mem _ hx))
    rw [handle_step_obj]
    constructor
    · rw [sendsOf_cons_read, sendsOf_cons_log, sendsOf_logEvs,
          sendsOf_cons_send, sendsOf_cons_log]
      simp only [List.map_cons]
      rw [ih2.1]
      rfl
    · rw [rsSkeleton_cons_read, rsSkeleton_cons_log, rsSkeleton_logEvs,
          rsSkeleton_cons_send, rsSkeleton_cons_log, ih2.2]
      rfl

theorem c5_witness :
    (sendsOf (handle_requests jlOracle initialPlugin
        [.bytes (some (.jobj [("method", .jstr "Name"), ("params", .jarr []),
                              ("id", .jnum 1)])),
         .bytes (some (.jobj [("method", .jstr "Bogus"), ("params", .jarr []),
                              ("id", .jnum 2)]))]).1).map Response.id =
      [.bytes (some (.jobj [("method", .jstr "Name"), ("params", .jarr []),
                            ("id", .jnum 1)])),
       .bytes (some (.jobj [("method", .jstr "Bogus"), ("params", .jarr []),
                            ("id", .jnum 2)]))].map reqIdOf ∧
    rsSkeleton (handle_requests jlOracle initialPlugin
        [.bytes (some (.jobj [("method", .jstr "Name"), ("params", .jarr []),
                              ("id", .jnum 1)])),
         .bytes (some (.jobj [("method", .jstr "Bogus"), ("params", .jarr []),
                              ("id", .jnum 2)]))]).1 =
      altPattern 2 :=
  c5_ordered_responses jlOracle
    [.bytes (some (.jobj [("method", .jstr "Name"), ("params", .jarr []),
                          ("id", .jnum 1)])),
     .bytes (some (.jobj [("method", .jstr "Bogus"), ("params", .jarr []),
                          ("id", .jnum 2)]))] initialPlugin (by
    intro r hr
    rcases List.mem_cons.mp hr with rfl | hr2
    · rfl
    · rcases List.mem_cons.mp hr2 with rfl | hr3
      · rfl
      · exact absurd hr3 (List.not_mem_nil r))

/-- C7: when the shared-secret token is wrong or the supported-version value
lacks the negotiated version, the process exits with code 1 and nothing is
ever written to stdout — in particular no Handshake Line; conversely any
stdout write can only happen after the credential check has passed. -/
theorem c7_credential_gate :
    ∀ (cookie pv : Option String) (port : Nat)
      (jl : String → Except String JVal) (reads : List RecvOutcome),
      (checkEnvPass cookie pv = false →
         Event.exitEv 1 ∈ mainTrace cookie pv port jl reads ∧
         ∀ s, Event.stdoutEv s ∉ mainTrace cookie pv port jl reads) ∧
      (∀ s, Event.stdoutEv s ∈ mainTrace cookie pv port jl reads →
         checkEnvPass cookie pv = true) := by
  intro cookie pv port jl reads
  by_cases h1 : (cookie == some magicCookieValue) = true
  · by_cases h2 : '2' ∈ (pv.getD "1").data
    · have hp : checkEnvPass cookie pv = true := by
        simp [checkEnvPass, check_environment, h1, h2]
      constructor
      · intro hf; rw [hp] at hf; cases hf
      · intro s _; exact hp
    · have hc : check_environment cookie pv =
          ([.logEv "错误: 不支持的协议版本", .exitEv 1], false) := by
        simp [check_environment, h1, h2]
      constructor
      · intro _
        refine ⟨by simp [mainTrace, hc], ?_⟩
        intro s
        simp [mainTrace, hc]
      · intro s hs
        exfalso
        simp [mainTrace, hc] at hs
  · have hc : check_environment cookie pv =
        ([.logEv "错误: 环境变量 ARCADE_RPC_PLUGIN 不正确",
          .logEv "提示: 此插件必须由 Arcade 主程序启动", .exitEv 1], false) := by
      simp [check_environment, h1]
    constructor
    · intro _
      refine ⟨by simp [mainTrace, hc], ?_⟩
      intro s
      simp [mainTrace, hc]
    · intro s hs
      exfalso
      simp [mainTrace, hc] at hs

theorem c7_witness :
    Event.exitEv 1 ∈ mainTrace (some "wrong-cookie") (some "2") 4000 jlOracle [] ∧
    ∀ s, Event.stdoutEv s ∉ mainTrace (some "wrong-cookie") (some "2") 4000 jlOracle [] :=
  (c7_credential_gate (some "wrong-cookie") (some "2") 4000 jlOracle []).1 rfl

theorem acceptCount_logEvs (ls : List String) :
    acceptCount (ls.map Event.logEv) = 0 := by
  induction ls with
  | nil => rfl
  | cons a as ih => simpa [acceptCount, isAcceptEv, List.countP_cons] using ih

theorem acceptCount_handle (jl : String → Except String JVal) :
    ∀ (reads : List RecvOutcome) (st : PluginState),
      acceptCount (handle_requests jl st reads).1 = 0 := by
  intro reads
  induction reads with
  | nil => intro st; rfl
  | cons r rs ih =>
    intro st
    rcases r with _ | _ | p
    · simp [handle_requests, acceptCount, isAcceptEv, List.countP_cons]
    · simp [handle_requests, acceptCount, isAcceptEv, List.countP_cons]
    · rcases p with _ | v
      · rw [handle_step_badparse]
        simpa [acceptCount, isAcceptEv, List.countP_cons] using ih st
      · cases v with
        | jobj fs =>
            rw [handle_step_obj]
            have hl := acceptCount_logEvs
              (call_method jl st (pyGetD fs "method" (.jstr ""))
                 (pyGetD fs "params" (.jarr []))).2.1
            have hr := ih (call_method jl st (pyGetD fs "method" (.jstr ""))
                 (pyGetD fs "params" (.jarr []))).1
            simp only [acceptCount, List.countP_cons, List.countP_append] at hl hr ⊢
            simp [isAcceptEv, hl, hr]
        | jnull => simp [handle_requests, acceptCount, isAcceptEv, List.countP_cons]
        | jbool b => simp [handle_requests, acceptCount, isAcceptEv, List.countP_cons]
        | jnum n => simp [handle_requests, acceptCount, isAcceptEv, List.countP_cons]
        | jstr s => simp [handle_requests, acceptCount, isAcceptEv, List.countP_cons]
        | jarr xs => simp [handle_requests, acceptCount, isAcceptEv, List.countP_cons]

/-- C8: over a whole process run at most one connection is ever accepted;
when the session runs (credential check passed) exactly one accept happens,
and the listening endpoint is closed afterwards with no accept following
it — no further connections are ever accepted for the lifetime of the
process. -/
theorem acceptCount_append_accept (l1 l2 : List Event) :
    acceptCount (l1 ++ Event.acceptEv :: l2) =
      acceptCount l1 + 1 + acceptCount l2 := by
  simp [acceptCount, List.countP_append, List.countP_cons, isAcceptEv]
  omega

theorem c8_single_accept :
    ∀ (cookie pv : Option String) (port : Nat)
      (jl : String → Except String JVal) (reads : List RecvOutcome),
      acceptCount (mainTrace cookie pv port jl reads) ≤ 1 ∧
      (checkEnvPass cookie pv = true →
        ∃ pre post, mainTrace cookie pv port jl reads =
            pre ++ Event.acceptEv :: post ∧
          acceptCount pre = 0 ∧ acceptCount post = 0 ∧
          Event.closeServerEv ∈ post) := by
  intro cookie pv port jl reads
  by_cases h1 : (cookie == some magicCookieValue) = true
  · by_cases h2 : '2' ∈ (pv.getD "1").data
    · have hc : check_environment cookie pv = ([], true) := by
        simp [check_environment, h1, h2]
      have hdecomp : mainTrace cookie pv port jl reads =
          [Event.logEv "[Main] Python 插件启动中...",
           Event.logEv (plgLog "插件实例已创建"),
           Event.stdoutEv (handshakeLine port),
           Event.logEv (srvLog ("服务器启动在 127.0.0.1:" ++ toString port)),
           Event.logEv (srvLog "等待客户端连接...")] ++
          Event.acceptEv ::
          (Event.logEv (srvLog "客户端已连接") ::
           ((handle_requests jl initialPlugin reads).1 ++
            ([Event.closeClientEv, Event.closeServerEv,
              Event.logEv (srvLog "服务器已停止")] ++ cleanupEvents))) := by
        simp [mainTrace, hc, serverStart]
      have hpost : acceptCount
          (Event.logEv (srvLog "客户端已连接") ::
           ((handle_requests jl initialPlugin reads).1 ++
            ([Event.closeClientEv, Event.closeServerEv,
              Event.logEv (srvLog "服务器已停止")] ++ cleanupEvents))) = 0 := by
        have hr := acceptCount_handle jl reads initialPlugin
        simp only [acceptCount, List.countP_cons, List.countP_append] at hr ⊢
        simp [isAcceptEv, hr, cleanupEvents]
      constructor
      · rw [hdecomp, acceptCount_append_accept, hpost]
        rfl
      · intro _
        refine ⟨_, _, hdecomp, rfl, hpost, ?_⟩
        simp
    · have hc : check_environment cookie pv =
          ([.logEv "错误: 不支持的协议版本", .exitEv 1], false) := by
        simp [check_environment, h1, h2]
      constructor
      · simp [mainTrace, hc, acceptCount, isAcceptEv, List.countP_cons]
      · intro hp
        exact absurd hp (by simp [checkEnvPass, hc])
  · have hc : check_environment cookie pv =
        ([.logEv "错误: 环境变量 ARCADE_RPC_PLUGIN 不正确",
          .logEv "提示: 此插件必须由 Arcade 主程序启动", .exitEv 1], false) := by
      simp [check_environment, h1]
    constructor
    · simp [mainTrace, hc, acceptCount, isAcceptEv, List.countP_cons]
    · intro hp
      exact absurd hp (by simp [checkEnvPass, hc])

theorem c8_witness :
    acceptCount (mainTrace (some magicCookieValue) (some "2") 4000 jlOracle []) ≤ 1 ∧
    ∃ pre post, mainTrace (some magicCookieValue) (some "2") 4000 jlOracle [] =
        pre ++ Event.acceptEv :: post ∧
      acceptCount pre = 0 ∧ acceptCount post = 0 ∧ Event.closeServerEv ∈ post :=
  ⟨(c8_single_accept (some magicCookieValue) (some "2") 4000 jlOracle []).1,
   (c8_single_accept (some magicCookieValue) (some "2") 4000 jlOracle []).2 rfl⟩
